import Mathlib

/-!
Shallow embedding of the Databricks MCP tool handlers
(`server/tools/compute.py`, `governance.py`, `mlflow.py`, `security.py`,
`workspace.py`).

Modelling conventions:
* A Python/JSON value is a `Value`; the Python `None` is `Value.null`.
* A Python dict is an insertion-ordered association list
  `List (String × Value)`; every handler envelope is such a list.
* An external SDK call (together with the client construction that
  precedes it inside the same `try` block) is a parameter of type
  `Except String α`: `Except.error e` models a raised exception whose
  `str(e)` is `e`, `Except.ok x` models a normal return of `x`.
* SDK response objects become structures.  A field the handler copies
  verbatim (`'k': obj.k`) is modelled as `Value`; a field read through a
  conditional (`obj.f.name if obj.f else None`, `obj.f.dict() if obj.f
  else None`, a list comprehension guarded by truthiness) is modelled as
  an `Option` of the projected payload, converted by the helpers below.
-/

/-- A JSON-like Python value as produced/consumed by the tool handlers. -/
inductive Value where
  | str : String → Value
  | num : Int → Value
  | boolV : Bool → Value
  | null : Value
  | list : List Value → Value
  | dict : List (String × Value) → Value

/-- `x.name if x else None` / a verbatim copy of an optional string field. -/
def optStr : Option String → Value
  | some s => Value.str s
  | none => Value.null

/-- A verbatim copy of an optional integer field. -/
def optInt : Option Int → Value
  | some n => Value.num n
  | none => Value.null

/-- `x.dict() if x else None`: the payload is an already-reshaped `Value`. -/
def optV : Option Value → Value
  | some v => v
  | none => Value.null

/-- `[f(x) for x in xs] if xs else None` — Python truthiness: both a missing
list and an empty list yield `None`. -/
def truthyList : Option (List Value) → Value
  | some (v :: vs) => Value.list (v :: vs)
  | _ => Value.null

/-- The uniform error envelope `{'status': 'error', 'message': str(e)}`
produced by every handler's `except` clause. -/
def errEnv (e : String) : List (String × Value) :=
  [("status", Value.str "error"), ("message", Value.str e)]

/-- Ordered-dict key lookup (first match wins, as in a Python dict where
keys are unique). -/
def alookup (k : String) : List (String × Value) → Option Value
  | [] => none
  | (k', v) :: rest => if k = k' then some v else alookup k rest

/-- The key set (in insertion order) of an embedded dict. -/
def dictKeys (d : List (String × Value)) : List String :=
  d.map Prod.fst

/-- Python `d[k] = v`: overwrite in place if the key exists, else append. -/
def pySetItem : List (String × Value) → String → Value → List (String × Value)
  | [], k, v => [(k, v)]
  | (k', v') :: rest, k, v =>
    if k' = k then (k, v) :: rest else (k', v') :: pySetItem rest k v

/-- The envelope's `status` field is one of the two enumerated tags. -/
def statusOk (env : List (String × Value)) : Prop :=
  alookup "status" env = some (Value.str "success") ∨
    alookup "status" env = some (Value.str "error")

/-! ## compute.py: clusters -/

/-- The SDK cluster object as read by `list_clusters` (compute.py:33-48). -/
structure ClusterInfo where
  cluster_id : Value
  cluster_name : Value
  state : Option String
  node_type_id : Value
  driver_node_type_id : Value
  num_workers : Value
  autoscale : Option Value
  spark_version : Value
  creator_user_name : Value
  start_time : Value
  terminated_time : Value
  last_state_loss_time : Value
  last_activity_time : Value

/-- The per-cluster dict built in the loop of `list_clusters`
(compute.py:34-48). -/
def clusterInfoDict (cluster : ClusterInfo) : Value :=
  Value.dict
    [("cluster_id", cluster.cluster_id),
     ("cluster_name", cluster.cluster_name),
     ("state", optStr cluster.state),
     ("node_type_id", cluster.node_type_id),
     ("driver_node_type_id", cluster.driver_node_type_id),
     ("num_workers", cluster.num_workers),
     ("autoscale", optV cluster.autoscale),
     ("spark_version", cluster.spark_version),
     ("creator_user_name", cluster.creator_user_name),
     ("start_time", cluster.start_time),
     ("terminated_time", cluster.terminated_time),
     ("last_state_loss_time", cluster.last_state_loss_time),
     ("last_activity_time", cluster.last_activity_time)]

/-- `list_clusters` (compute.py:22-57).  `call` is the outcome of
`get_workspace_client()` composed with `list(client.clusters.list())`. -/
def list_clusters (call : Except String (List ClusterInfo)) :
    List (String × Value) :=
  match call with
  | Except.error e => errEnv e
  | Except.ok clusters =>
    let cluster_list := clusters.map clusterInfoDict
    [("status", Value.str "success"),
     ("clusters", Value.list cluster_list),
     ("count", Value.num cluster_list.length)]

/-- The SDK cluster object as read by `get_cluster` (compute.py:75-103). -/
structure ClusterDetail where
  cluster_id : Value
  cluster_name : Value
  state : Option String
  state_message : Value
  node_type_id : Value
  driver_node_type_id : Value
  num_workers : Value
  autoscale : Option Value
  spark_version : Value
  spark_conf : Value
  aws_attributes : Option Value
  azure_attributes : Option Value
  gcp_attributes : Option Value
  cluster_source : Option String
  creator_user_name : Value
  start_time : Value
  terminated_time : Value
  last_state_loss_time : Value
  last_activity_time : Value
  cluster_memory_mb : Value
  cluster_cores : Value
  default_tags : Value
  custom_tags : Value
  init_scripts : Option (List Value)
  enable_elastic_disk : Value
  disk_spec : Option Value
  cluster_log_conf : Option Value

/-- The `'cluster'` dict built by `get_cluster` (compute.py:75-103). -/
def clusterDetailDict (cluster : ClusterDetail) : List (String × Value) :=
  [("cluster_id", cluster.cluster_id),
   ("cluster_name", cluster.cluster_name),
   ("state", optStr cluster.state),
   ("state_message", cluster.state_message),
   ("node_type_id", cluster.node_type_id),
   ("driver_node_type_id", cluster.driver_node_type_id),
   ("num_workers", cluster.num_workers),
   ("autoscale", optV cluster.autoscale),
   ("spark_version", cluster.spark_version),
   ("spark_conf", cluster.spark_conf),
   ("aws_attributes", optV cluster.aws_attributes),
   ("azure_attributes", optV cluster.azure_attributes),
   ("gcp_attributes", optV cluster.gcp_attributes),
   ("cluster_source", optStr cluster.cluster_source),
   ("creator_user_name", cluster.creator_user_name),
   ("start_time", cluster.start_time),
   ("terminated_time", cluster.terminated_time),
   ("last_state_loss_time", cluster.last_state_loss_time),
   ("last_activity_time", cluster.last_activity_time),
   ("cluster_memory_mb", cluster.cluster_memory_mb),
   ("cluster_cores", cluster.cluster_cores),
   ("default_tags", cluster.default_tags),
   ("custom_tags", cluster.custom_tags),
   ("init_scripts", truthyList cluster.init_scripts),
   ("enable_elastic_disk", cluster.enable_elastic_disk),
   ("disk_spec", optV cluster.disk_spec),
   ("cluster_log_conf", optV cluster.cluster_log_conf)]

/-- `get_cluster` (compute.py:60-106).  `call` is the outcome of
`client.clusters.get(cluster_id)` (client construction included). -/
def get_cluster (cluster_id : String) (call : Except String ClusterDetail) :
    List (String × Value) :=
  match call with
  | Except.error e => errEnv e
  | Except.ok cluster =>
    [("status", Value.str "success"),
     ("cluster", Value.dict (clusterDetailDict cluster))]

/-! ## compute.py: cluster events -/

/-- The SDK cluster event as read by `get_cluster_events`
(compute.py:270-275). -/
structure EventInfo where
  cluster_id : Value
  timestamp : Value
  eventType : Option String
  details : Option Value

/-- The per-event dict built by `get_cluster_events` (compute.py:270-275);
the Python key is `'type'`, from `event.type.name if event.type else None`. -/
def eventInfoDict (event : EventInfo) : Value :=
  Value.dict
    [("cluster_id", event.cluster_id),
     ("timestamp", event.timestamp),
     ("type", optStr event.eventType),
     ("details", optV event.details)]

/-- The SDK `GetEventsResponse` as read by `get_cluster_events`. -/
structure EventsResponse where
  events : Option (List EventInfo)
  next_page : Value
  total_count : Value

/-- The keyword arguments `get_cluster_events` forwards to
`client.clusters.get_events(...)` (compute.py:259-265): every parameter is
forwarded, the unset optionals as explicit `None`. -/
def get_cluster_events_forwarded (cluster_id : String)
    (start_time end_time : Option Int) (order : String) (limit : Int) :
    List (String × Value) :=
  [("cluster_id", Value.str cluster_id),
   ("start_time", optInt start_time),
   ("end_time", optInt end_time),
   ("order", Value.str order),
   ("limit", Value.num limit)]

/-- `get_cluster_events` (compute.py:243-286).  The guard
`if events_response.events:` is Python truthiness: a missing or empty
event list leaves `events_list` empty. -/
def get_cluster_events (cluster_id : String)
    (start_time end_time : Option Int) (order : String) (limit : Int)
    (call : Except String EventsResponse) : List (String × Value) :=
  match call with
  | Except.error e => errEnv e
  | Except.ok events_response =>
    let events_list := match events_response.events with
      | some (ev :: evs) => (ev :: evs).map eventInfoDict
      | _ => []
    [("status", Value.str "success"),
     ("events", Value.list events_list),
     ("count", Value.num events_list.length),
     ("next_page", events_response.next_page),
     ("total_count", events_response.total_count)]

/-! ## compute.py / security.py: in-place config mutation handlers -/

/-- `edit_cluster` (compute.py:217-240).  The handler mutates the caller's
`cluster_config` dict in place (`cluster_config['cluster_id'] = cluster_id`)
and then forwards it as the keyword arguments of `client.clusters.edit`.
The second component of the result is that mutated dict: it is both the
forwarded argument mapping and the caller-visible final state of
`cluster_config`. -/
def edit_cluster (cluster_id : String)
    (cluster_config : List (String × Value)) (call : Except String Unit) :
    List (String × Value) × List (String × Value) :=
  let cluster_config := pySetItem cluster_config "cluster_id" (Value.str cluster_id)
  match call with
  | Except.error e => (errEnv e, cluster_config)
  | Except.ok _ =>
    ([("status", Value.str "success"),
      ("message", Value.str ("Cluster " ++ cluster_id ++ " configuration updated"))],
     cluster_config)

/-- `edit_instance_pool` (compute.py:394-417), same in-place mutation with
key `'instance_pool_id'`. -/
def edit_instance_pool (instance_pool_id : String)
    (pool_config : List (String × Value)) (call : Except String Unit) :
    List (String × Value) × List (String × Value) :=
  let pool_config := pySetItem pool_config "instance_pool_id" (Value.str instance_pool_id)
  match call with
  | Except.error e => (errEnv e, pool_config)
  | Except.ok _ =>
    ([("status", Value.str "success"),
      ("message", Value.str ("Instance pool " ++ instance_pool_id ++ " updated successfully"))],
     pool_config)

/-- `edit_cluster_policy` (compute.py:651-674), same in-place mutation with
key `'policy_id'`. -/
def edit_cluster_policy (policy_id : String)
    (policy_config : List (String × Value)) (call : Except String Unit) :
    List (String × Value) × List (String × Value) :=
  let policy_config := pySetItem policy_config "policy_id" (Value.str policy_id)
  match call with
  | Except.error e => (errEnv e, policy_config)
  | Except.ok _ =>
    ([("status", Value.str "success"),
      ("message", Value.str ("Cluster policy " ++ policy_id ++ " updated successfully"))],
     policy_config)

/-- `update_ip_access_list` (security.py:843-867), same in-place mutation
with key `'list_id'`, forwarded to `client.ip_access_lists.replace`. -/
def update_ip_access_list (list_id : String)
    (ip_config : List (String × Value)) (call : Except String Unit) :
    List (String × Value) × List (String × Value) :=
  let ip_config := pySetItem ip_config "list_id" (Value.str list_id)
  match call with
  | Except.error e => (errEnv e, ip_config)
  | Except.ok _ =>
    ([("status", Value.str "success"),
      ("list_id", Value.str list_id),
      ("message", Value.str ("IP access list " ++ list_id ++ " updated successfully"))],
     ip_config)

/-! ## security.py: secrets -/

/-- The SDK secret metadata as read by `list_secrets` (security.py:108-111). -/
structure SecretInfo where
  key : Value
  last_updated_timestamp : Value

/-- The per-secret dict built by `list_secrets` (security.py:108-111). -/
def secretInfoDict (secret : SecretInfo) : Value :=
  Value.dict
    [("key", secret.key),
     ("last_updated_timestamp", secret.last_updated_timestamp)]

/-- `list_secrets` (security.py:93-121). -/
def list_secrets (scope_name : String)
    (call : Except String (List SecretInfo)) : List (String × Value) :=
  match call with
  | Except.error e => errEnv e
  | Except.ok secrets =>
    let secret_list := secrets.map secretInfoDict
    [("status", Value.str "success"),
     ("scope_name", Value.str scope_name),
     ("secrets", Value.list secret_list),
     ("count", Value.num secret_list.length)]

/-- `put_secret` (security.py:124-146).  The secret `value` is only
forwarded to the external call, never echoed in the envelope. -/
def put_secret (scope_name key value : String) (call : Except String Unit) :
    List (String × Value) :=
  match call with
  | Except.error e => errEnv e
  | Except.ok _ =>
    [("status", Value.str "success"),
     ("scope_name", Value.str scope_name),
     ("key", Value.str key),
     ("message", Value.str ("Secret " ++ key ++ " created/updated successfully in scope " ++ scope_name))]

/-! ## mlflow.py: model registry -/

/-- The SDK registered model as read by `list_models` (mlflow.py:32-40). -/
structure ModelInfo where
  name : Value
  creation_timestamp : Value
  last_updated_timestamp : Value
  user_id : Value
  description : Value
  latest_versions : Option (List Value)
  tags : Option (List Value)

/-- The per-model dict built by `list_models` (mlflow.py:32-40). -/
def modelInfoDict (model : ModelInfo) : Value :=
  Value.dict
    [("name", model.name),
     ("creation_timestamp", model.creation_timestamp),
     ("last_updated_timestamp", model.last_updated_timestamp),
     ("user_id", model.user_id),
     ("description", model.description),
     ("latest_versions", truthyList model.latest_versions),
     ("tags", truthyList model.tags)]

/-- `list_models` (mlflow.py:20-49). -/
def list_models (call : Except String (List ModelInfo)) :
    List (String × Value) :=
  match call with
  | Except.error e => errEnv e
  | Except.ok models =>
    let model_list := models.map modelInfoDict
    [("status", Value.str "success"),
     ("models", Value.list model_list),
     ("count", Value.num model_list.length)]

/-- The `create_config` dict built by `create_model` (mlflow.py:95-99) and
forwarded as keyword arguments to `client.model_registry.create_model`.
`if description:` / `if tags:` are Python truthiness: `None`, the empty
string and the empty list all leave the key out. -/
def create_model_config (model_name : String) (description : Option String)
    (tags : Option (List Value)) : List (String × Value) :=
  let create_config := [("name", Value.str model_name)]
  let create_config := match description with
    | some d => if d = "" then create_config
                else create_config ++ [("description", Value.str d)]
    | none => create_config
  match tags with
  | some ts => if ts.isEmpty then create_config
               else create_config ++ [("tags", Value.list ts)]
  | none => create_config

/-- The SDK response of `client.model_registry.create_model`. -/
structure CreatedModel where
  name : Value
  creation_timestamp : Value

/-- `create_model` (mlflow.py:81-110). -/
def create_model (model_name : String) (description : Option String)
    (tags : Option (List Value)) (call : Except String CreatedModel) :
    List (String × Value) :=
  match call with
  | Except.error e => errEnv e
  | Except.ok model =>
    [("status", Value.str "success"),
     ("model_name", model.name),
     ("creation_timestamp", model.creation_timestamp),
     ("message", Value.str ("Model " ++ model_name ++ " created successfully"))]

/-! ## workspace.py -/

/-- The SDK workspace object as read by `list_workspace_objects`
(workspace.py:35-43). -/
structure WorkspaceObjectInfo where
  object_type : Option String
  path : Value
  language : Option String
  object_id : Value
  size : Value
  created_at : Value
  modified_at : Value

/-- The per-object dict built by `list_workspace_objects`
(workspace.py:35-43). -/
def workspaceObjectDict (obj : WorkspaceObjectInfo) : List (String × Value) :=
  [("object_type", optStr obj.object_type),
   ("path", obj.path),
   ("language", optStr obj.language),
   ("object_id", obj.object_id),
   ("size", obj.size),
   ("created_at", obj.created_at),
   ("modified_at", obj.modified_at)]

/-- `list_workspace_objects` (workspace.py:20-53). -/
def list_workspace_objects (path : String)
    (call : Except String (List WorkspaceObjectInfo)) :
    List (String × Value) :=
  match call with
  | Except.error e => errEnv e
  | Except.ok objects =>
    let object_list := objects.map (fun o => Value.dict (workspaceObjectDict o))
    [("status", Value.str "success"),
     ("path", Value.str path),
     ("objects", Value.list object_list),
     ("count", Value.num object_list.length)]

/-- The SDK repo object as read by `list_repos` (workspace.py:226-233). -/
structure RepoInfo where
  id : Value
  path : Value
  url : Value
  provider : Value
  branch : Value
  head_commit_id : Value

/-- The per-repo dict built by `list_repos` (workspace.py:226-233). -/
def repoInfoDict (repo : RepoInfo) : Value :=
  Value.dict
    [("id", repo.id),
     ("path", repo.path),
     ("url", repo.url),
     ("provider", repo.provider),
     ("branch", repo.branch),
     ("head_commit_id", repo.head_commit_id)]

/-- `list_repos` (workspace.py:214-242). -/
def list_repos (call : Except String (List RepoInfo)) :
    List (String × Value) :=
  match call with
  | Except.error e => errEnv e
  | Except.ok repos =>
    let repo_list := repos.map repoInfoDict
    [("status", Value.str "success"),
     ("repositories", Value.list repo_list),
     ("count", Value.num repo_list.length)]


/-! ## governance.py -/

/-- The single-quote character, used by the SQL templates around every
interpolated caller value. -/
def sqt : String := String.singleton (Char.ofNat 39)

/-- Python `sep.join(xs)`. -/
def pyJoin (sep : String) : List String → String
  | [] => ""
  | [x] => x
  | x :: y :: rest => x ++ sep ++ pyJoin sep (y :: rest)

/-- The `where_conditions` list and `" AND ".join(...)` of
`query_audit_logs` (governance.py:87-97).  `if service_name:` and
`if action_name:` are Python truthiness: `None` and `""` add no clause. -/
def query_audit_logs_where (start_date end_date : String)
    (service_name action_name : Option String) : String :=
  let where_conditions :=
    ["event_date >= " ++ sqt ++ start_date ++ sqt,
     "event_date <= " ++ sqt ++ end_date ++ sqt]
  let where_conditions := match service_name with
    | some s => if s = "" then where_conditions
                else where_conditions ++ ["service_name = " ++ sqt ++ s ++ sqt]
    | none => where_conditions
  let where_conditions := match action_name with
    | some a => if a = "" then where_conditions
                else where_conditions ++ ["action_name = " ++ sqt ++ a ++ sqt]
    | none => where_conditions
  pyJoin " AND " where_conditions

/-- The fixed part of the audit-log query template before the WHERE clause
(governance.py:99-113). -/
def auditQueryHead : String :=
  "\n            SELECT \n                event_time,\n                event_date,\n                workspace_id,\n                account_id,\n                user_identity,\n                service_name,\n                action_name,\n                request_id,\n                response,\n                source_ip_address,\n                user_agent\n            FROM system.access.audit\n            WHERE "

/-- The full query string built by `query_audit_logs`
(governance.py:99-116). -/
def query_audit_logs_query (start_date end_date : String)
    (service_name action_name : Option String) (limit : Int) : String :=
  auditQueryHead ++
    query_audit_logs_where start_date end_date service_name action_name ++
    "\n            ORDER BY event_time DESC\n            LIMIT " ++
    toString limit ++ "\n            "

/-- `query_audit_logs` (governance.py:70-135).  `call` is the outcome of
client construction plus `statement_execution.execute_statement`; its
payload is the copied `result.statement_id`. -/
def query_audit_logs (start_date end_date : String)
    (service_name action_name : Option String) (limit : Int)
    (call : Except String Value) : List (String × Value) :=
  match call with
  | Except.error e => errEnv e
  | Except.ok statement_id =>
    let query := query_audit_logs_query start_date end_date service_name action_name limit
    [("status", Value.str "success"),
     ("query", Value.str query),
     ("start_date", Value.str start_date),
     ("end_date", Value.str end_date),
     ("service_name", optStr service_name),
     ("action_name", optStr action_name),
     ("statement_id", statement_id),
     ("message", Value.str "Audit log query executed successfully")]

/-- The full query string built by `query_table_usage`
(governance.py:267-286); `table_name` is interpolated three times. -/
def query_table_usage_query (table_name : String) (days : Int) : String :=
  "\n            SELECT \n                table_name,\n                read_count,\n                write_count,\n                last_accessed,\n                accessed_by_users\n            FROM (\n                SELECT \n                    " ++
    sqt ++ table_name ++ sqt ++
    " as table_name,\n                    COUNT(CASE WHEN action_name LIKE " ++
    sqt ++ "%READ%" ++ sqt ++
    " THEN 1 END) as read_count,\n                    COUNT(CASE WHEN action_name LIKE " ++
    sqt ++ "%WRITE%" ++ sqt ++
    " THEN 1 END) as write_count,\n                    MAX(event_time) as last_accessed,\n                    COUNT(DISTINCT user_identity.email) as accessed_by_users\n                FROM system.access.audit\n                WHERE event_date >= DATE_SUB(CURRENT_DATE(), " ++
    toString days ++
    ")\n                AND (request_params.table_full_name = " ++
    sqt ++ table_name ++ sqt ++
    " \n                     OR request_params.table_full_name LIKE " ++
    sqt ++ "%" ++ table_name ++ "%" ++ sqt ++
    ")\n            )\n            "

/-- `query_table_usage` (governance.py:254-303). -/
def query_table_usage (table_name : String) (days : Int)
    (call : Except String Value) : List (String × Value) :=
  match call with
  | Except.error e => errEnv e
  | Except.ok statement_id =>
    let query := query_table_usage_query table_name days
    [("status", Value.str "success"),
     ("table_name", Value.str table_name),
     ("days", Value.num days),
     ("query", Value.str query),
     ("statement_id", statement_id),
     ("message", Value.str "Table usage query executed successfully")]

/-- The full query string built by `query_storage_usage`
(governance.py:492-505). -/
def query_storage_usage_query (start_date end_date : String) : String :=
  "\n            SELECT \n                usage_date,\n                storage_type,\n                SUM(usage_quantity) as total_storage_tb,\n                SUM(list_price) as total_cost_usd,\n                COUNT(*) as usage_records\n            FROM system.billing.usage\n            WHERE usage_date >= " ++
    sqt ++ start_date ++ sqt ++
    "\n            AND usage_date <= " ++
    sqt ++ end_date ++ sqt ++
    "\n            AND usage_metadata.storage_type IS NOT NULL\n            GROUP BY usage_date, storage_type\n            ORDER BY usage_date DESC, total_storage_tb DESC\n            "

/-- `query_storage_usage` (governance.py:479-522). -/
def query_storage_usage (start_date end_date : String)
    (call : Except String Value) : List (String × Value) :=
  match call with
  | Except.error e => errEnv e
  | Except.ok statement_id =>
    let query := query_storage_usage_query start_date end_date
    [("status", Value.str "success"),
     ("start_date", Value.str start_date),
     ("end_date", Value.str end_date),
     ("query", Value.str query),
     ("statement_id", statement_id),
     ("message", Value.str "Storage usage query executed successfully")]

/-- The fixed part of the lineage query template before the WHERE clause
(governance.py:163-176). -/
def lineageQueryHead : String :=
  "\n            SELECT \n                source_table_full_name,\n                target_table_full_name,\n                source_table_catalog,\n                source_table_schema,\n                source_table_name,\n                target_table_catalog,\n                target_table_schema,\n                target_table_name,\n                created_at,\n                created_by\n            FROM system.access.table_lineage\n            WHERE "

/-- `query_table_lineage` (governance.py:138-196).  The client accessor and
the statement execution are separated so that the guard can be observed:
`clientRes` is the outcome of `get_workspace_client()`, `execRes` that of
`execute_statement`.  The second component of the result records whether
`execute_statement` was invoked at all. -/
def query_table_lineage (table_name : String) (upstream downstream : Bool)
    (clientRes : Except String Unit) (execRes : Except String Value) :
    List (String × Value) × Bool :=
  match clientRes with
  | Except.error e => (errEnv e, false)
  | Except.ok _ =>
    let lineage_conditions :=
      (if upstream then ["target_table_full_name = " ++ sqt ++ table_name ++ sqt] else []) ++
      (if downstream then ["source_table_full_name = " ++ sqt ++ table_name ++ sqt] else [])
    if lineage_conditions.isEmpty then
      (errEnv "Must specify upstream or downstream lineage", false)
    else
      let where_clause := pyJoin " OR " lineage_conditions
      let query := lineageQueryHead ++ where_clause ++
        "\n            ORDER BY created_at DESC\n            "
      match execRes with
      | Except.error e => (errEnv e, true)
      | Except.ok statement_id =>
        ([("status", Value.str "success"),
          ("table_name", Value.str table_name),
          ("query", Value.str query),
          ("upstream", Value.boolV upstream),
          ("downstream", Value.boolV downstream),
          ("statement_id", statement_id),
          ("message", Value.str "Table lineage query executed successfully")],
         true)

/-- The SDK schema object as read by `list_system_schemas`
(governance.py:34-42). -/
structure SchemaInfo where
  name : Value
  catalog_name : Value
  comment : Value
  full_name : Value
  owner : Value
  created_at : Value
  updated_at : Value

/-- The per-schema dict built by `list_system_schemas`
(governance.py:34-42). -/
def schemaInfoDict (schema : SchemaInfo) : Value :=
  Value.dict
    [("name", schema.name),
     ("catalog_name", schema.catalog_name),
     ("comment", schema.comment),
     ("full_name", schema.full_name),
     ("owner", schema.owner),
     ("created_at", schema.created_at),
     ("updated_at", schema.updated_at)]

/-- The hard-coded fallback schema list of `list_system_schemas`
(governance.py:55-62). -/
def fallbackSystemSchemas : List Value :=
  [Value.dict [("name", Value.str "access"), ("description", Value.str "Audit logs and access information")],
   Value.dict [("name", Value.str "billing"), ("description", Value.str "Billing and usage information")],
   Value.dict [("name", Value.str "compute"), ("description", Value.str "Compute resource information")],
   Value.dict [("name", Value.str "storage"), ("description", Value.str "Storage usage information")],
   Value.dict [("name", Value.str "marketplace"), ("description", Value.str "Marketplace information")],
   Value.dict [("name", Value.str "information_schema"), ("description", Value.str "Information schema metadata")]]

/-- `list_system_schemas` (governance.py:20-67).  The inner `try` wraps only
the schema listing: `clientRes` is the outcome of `get_workspace_client()`
(caught by the outer `except`), `call` that of
`list(client.schemas.list(catalog_name='system'))` (caught by the inner
`except`, which falls back to the hard-coded list). -/
def list_system_schemas (clientRes : Except String Unit)
    (call : Except String (List SchemaInfo)) : List (String × Value) :=
  match clientRes with
  | Except.error e => errEnv e
  | Except.ok _ =>
    match call with
    | Except.ok schemas =>
      let schema_list := schemas.map schemaInfoDict
      [("status", Value.str "success"),
       ("system_schemas", Value.list schema_list),
       ("count", Value.num schema_list.length),
       ("message", Value.str "System schemas retrieved successfully")]
    | Except.error _ =>
      [("status", Value.str "success"),
       ("system_schemas", Value.list fallbackSystemSchemas),
       ("count", Value.num 6),
       ("message", Value.str "Standard system schemas listed")]

/-! ## Substring machinery for the injected-query claims -/

/-- `startsWithL hay needle`: `needle` is an initial segment of `hay`. -/
def startsWithL : List Char → List Char → Bool
  | _, [] => true
  | [], _ :: _ => false
  | c :: cs, d :: ds => c == d && startsWithL cs ds

/-- `containsL hay needle`: `needle` occurs contiguously in `hay`. -/
def containsL : List Char → List Char → Bool
  | [], needle => startsWithL [] needle
  | c :: cs, needle => startsWithL (c :: cs) needle || containsL cs needle

/-- `needle` occurs verbatim (contiguously) inside `hay`. -/
def strContainsSub (hay needle : String) : Bool :=
  containsL hay.data needle.data

theorem startsWithL_append (m r : List Char) : startsWithL (m ++ r) m = true := by
  induction m with
  | nil => cases r <;> rfl
  | cons c cs ih => simp [startsWithL, ih]

theorem containsL_nil_needle (hay : List Char) : containsL hay [] = true := by
  induction hay with
  | nil => rfl
  | cons c cs ih => simp [containsL, startsWithL]

theorem containsL_here (m r : List Char) : containsL (m ++ r) m = true := by
  cases m with
  | nil => simpa using containsL_nil_needle r
  | cons c cs =>
    have h1 : startsWithL (c :: cs ++ r) (c :: cs) = true := startsWithL_append (c :: cs) r
    simp [containsL]
    exact Or.inl (by simpa using h1)

theorem containsL_append_left (l hay needle : List Char)
    (h : containsL hay needle = true) : containsL (l ++ hay) needle = true := by
  induction l with
  | nil => simpa using h
  | cons c cs ih => simp [containsL, ih]

theorem strContainsSub_append_left (l r needle : String)
    (h : strContainsSub r needle = true) :
    strContainsSub (l ++ r) needle = true := by
  unfold strContainsSub at h ⊢
  rw [String.data_append]
  exact containsL_append_left _ _ _ h

theorem strContainsSub_here (m r : String) : strContainsSub (m ++ r) m = true := by
  unfold strContainsSub
  rw [String.data_append]
  exact containsL_here _ _

/-! ## Lookup lemmas for the in-place mutation claim -/

theorem alookup_pySetItem_self (d : List (String × Value)) (k : String) (v : Value) :
    alookup k (pySetItem d k v) = some v := by
  induction d with
  | nil => simp [pySetItem, alookup]
  | cons p rest ih =>
    obtain ⟨k', v'⟩ := p
    by_cases h : k' = k
    · subst h
      simp [pySetItem, alookup]
    · have h2 : ¬ (k = k') := fun hh => h hh.symm
      simp [pySetItem, alookup, h, h2, ih]

theorem alookup_pySetItem_other (d : List (String × Value)) (k idKey : String)
    (v : Value) (h : k ≠ idKey) :
    alookup k (pySetItem d idKey v) = alookup k d := by
  induction d with
  | nil => simp [pySetItem, alookup, h]
  | cons p rest ih =>
    obtain ⟨k', v'⟩ := p
    by_cases hk : k' = idKey
    · subst hk
      simp [pySetItem, alookup, h]
    · by_cases hkk : k = k'
      · subst hkk
        simp [pySetItem, alookup, hk]
      · simp [pySetItem, alookup, hk, hkk, ih]

/-! ## Claim theorems -/

/-- Claim C1: every embedded tool handler is a total function into the
envelope type — no exception crosses the handler boundary — and on every
input the returned envelope carries a `status` key whose value is
`"success"` or `"error"`. -/
theorem handlers_status_enumerated :
    (∀ call, statusOk (list_clusters call)) ∧
    (∀ cid call, statusOk (get_cluster cid call)) ∧
    (∀ cid st et order limit call,
      statusOk (get_cluster_events cid st et order limit call)) ∧
    (∀ cid config call, statusOk (edit_cluster cid config call).1) ∧
    (∀ pid config call, statusOk (edit_instance_pool pid config call).1) ∧
    (∀ pid config call, statusOk (edit_cluster_policy pid config call).1) ∧
    (∀ lid config call, statusOk (update_ip_access_list lid config call).1) ∧
    (∀ scope call, statusOk (list_secrets scope call)) ∧
    (∀ scope key value call, statusOk (put_secret scope key value call)) ∧
    (∀ call, statusOk (list_models call)) ∧
    (∀ name desc tags call, statusOk (create_model name desc tags call)) ∧
    (∀ path call, statusOk (list_workspace_objects path call)) ∧
    (∀ call, statusOk (list_repos call)) ∧
    (∀ clientRes call, statusOk (list_system_schemas clientRes call)) ∧
    (∀ sd ed sn an limit call, statusOk (query_audit_logs sd ed sn an limit call)) ∧
    (∀ t days call, statusOk (query_table_usage t days call)) ∧
    (∀ sd ed call, statusOk (query_storage_usage sd ed call)) ∧
    (∀ t up down clientRes execRes,
      statusOk (query_table_lineage t up down clientRes execRes).1) := by
  refine ⟨?_, ?_, ?_, ?_, ?_, ?_, ?_, ?_, ?_, ?_, ?_, ?_, ?_, ?_, ?_, ?_, ?_, ?_⟩
  · intro call; cases call with
    | error e => exact Or.inr rfl
    | ok x => exact Or.inl rfl
  · intro cid call; cases call with
    | error e => exact Or.inr rfl
    | ok x => exact Or.inl rfl
  · intro cid st et order limit call; cases call with
    | error e => exact Or.inr rfl
    | ok x => exact Or.inl rfl
  · intro cid config call; cases call with
    | error e => exact Or.inr rfl
    | ok x => exact Or.inl rfl
  · intro pid config call; cases call with
    | error e => exact Or.inr rfl
    | ok x => exact Or.inl rfl
  · intro pid config call; cases call with
    | error e => exact Or.inr rfl
    | ok x => exact Or.inl rfl
  · intro lid config call; cases call with
    | error e => exact Or.inr rfl
    | ok x => exact Or.inl rfl
  · intro scope call; cases call with
    | error e => exact Or.inr rfl
    | ok x => exact Or.inl rfl
  · intro scope key value call; cases call with
    | error e => exact Or.inr rfl
    | ok x => exact Or.inl rfl
  · intro call; cases call with
    | error e => exact Or.inr rfl
    | ok x => exact Or.inl rfl
  · intro name desc tags call; cases call with
    | error e => exact Or.inr rfl
    | ok x => exact Or.inl rfl
  · intro path call; cases call with
    | error e => exact Or.inr rfl
    | ok x => exact Or.inl rfl
  · intro call; cases call with
    | error e => exact Or.inr rfl
    | ok x => exact Or.inl rfl
  · intro clientRes call
    cases clientRes with
    | error e => exact Or.inr rfl
    | ok u => cases call with
      | error e => exact Or.inl rfl
      | ok x => exact Or.inl rfl
  · intro sd ed sn an limit call; cases call with
    | error e => exact Or.inr rfl
    | ok x => exact Or.inl rfl
  · intro t days call; cases call with
    | error e => exact Or.inr rfl
    | ok x => exact Or.inl rfl
  · intro sd ed call; cases call with
    | error e => exact Or.inr rfl
    | ok x => exact Or.inl rfl
  · intro t up down clientRes execRes
    cases clientRes with
    | error e => exact Or.inr rfl
    | ok u =>
      cases up <;> cases down <;> cases execRes <;>
        first
          | exact Or.inr rfl
          | exact Or.inl rfl

/-- The part of claim C2 that fails on the code: the error `message` is a
non-empty string. -/
def errMessageNonEmpty (env : List (String × Value)) : Prop :=
  ∀ s, alookup "message" env = some (Value.str s) → s ≠ ""

/-- Claim C2, counterexample: an exception whose stringification is empty —
Python `str(Exception())` is `""` — makes `list_clusters` return an error
envelope whose `message` is the empty string, refuting the claimed
non-emptiness. -/
theorem error_message_can_be_empty :
    ¬ errMessageNonEmpty (list_clusters (Except.error "")) := by
  intro h
  exact h "" rfl rfl

/-- Claim C2 (amended): for every embedded handler, an exception raised
during the external call yields exactly the two-key envelope
`{status: "error", message: str(e)}` — the message being the stringified
exception, which may be empty — and none of the success-branch keys
appear. -/
theorem error_envelope_exact :
    (∀ e, list_clusters (Except.error e) = errEnv e) ∧
    (∀ cid e, get_cluster cid (Except.error e) = errEnv e) ∧
    (∀ cid st et order limit e,
      get_cluster_events cid st et order limit (Except.error e) = errEnv e) ∧
    (∀ cid config e, (edit_cluster cid config (Except.error e)).1 = errEnv e) ∧
    (∀ pid config e, (edit_instance_pool pid config (Except.error e)).1 = errEnv e) ∧
    (∀ pid config e, (edit_cluster_policy pid config (Except.error e)).1 = errEnv e) ∧
    (∀ lid config e, (update_ip_access_list lid config (Except.error e)).1 = errEnv e) ∧
    (∀ scope e, list_secrets scope (Except.error e) = errEnv e) ∧
    (∀ scope key value e, put_secret scope key value (Except.error e) = errEnv e) ∧
    (∀ e, list_models (Except.error e) = errEnv e) ∧
    (∀ name desc tags e, create_model name desc tags (Except.error e) = errEnv e) ∧
    (∀ path e, list_workspace_objects path (Except.error e) = errEnv e) ∧
    (∀ e, list_repos (Except.error e) = errEnv e) ∧
    (∀ sd ed sn an limit e, query_audit_logs sd ed sn an limit (Except.error e) = errEnv e) ∧
    (∀ t days e, query_table_usage t days (Except.error e) = errEnv e) ∧
    (∀ sd ed e, query_storage_usage sd ed (Except.error e) = errEnv e) ∧
    (∀ t up down execRes e,
      (query_table_lineage t up down (Except.error e) execRes).1 = errEnv e) ∧
    (∀ t e,
      (query_table_lineage t true true (Except.ok ()) (Except.error e)).1 = errEnv e) ∧
    (∀ e, list_system_schemas (Except.error e) (Except.ok []) = errEnv e) := by
  refine ⟨fun e => rfl, fun cid e => rfl, fun cid st et order limit e => rfl,
    fun cid config e => rfl, fun pid config e => rfl, fun pid config e => rfl,
    fun lid config e => rfl, fun scope e => rfl, fun scope key value e => rfl,
    fun e => rfl, fun name desc tags e => rfl, fun path e => rfl, fun e => rfl,
    fun sd ed sn an limit e => rfl, fun t days e => rfl, fun sd ed e => rfl,
    fun t up down execRes e => rfl, fun t e => rfl, fun e => rfl⟩

/-- Claim C3: on a successful external call the envelope has
`status == "success"` and a key set that is the same for every input;
fields that are absent (`None`) on the source object appear with the
explicit absent-value marker `Value.null` rather than being omitted.
Shown for `get_cluster` and `list_workspace_objects`. -/
theorem success_stable_keys :
    (∀ cid cluster, alookup "status" (get_cluster cid (Except.ok cluster)) =
      some (Value.str "success")) ∧
    (∀ cid cluster, dictKeys (get_cluster cid (Except.ok cluster)) =
      ["status", "cluster"]) ∧
    (∀ cluster : ClusterDetail, dictKeys (clusterDetailDict cluster) =
      ["cluster_id", "cluster_name", "state", "state_message", "node_type_id",
       "driver_node_type_id", "num_workers", "autoscale", "spark_version",
       "spark_conf", "aws_attributes", "azure_attributes", "gcp_attributes",
       "cluster_source", "creator_user_name", "start_time", "terminated_time",
       "last_state_loss_time", "last_activity_time", "cluster_memory_mb",
       "cluster_cores", "default_tags", "custom_tags", "init_scripts",
       "enable_elastic_disk", "disk_spec", "cluster_log_conf"]) ∧
    (∀ cluster : ClusterDetail, alookup "state" (clusterDetailDict cluster) =
      some (optStr cluster.state)) ∧
    (∀ cluster : ClusterDetail, alookup "autoscale" (clusterDetailDict cluster) =
      some (optV cluster.autoscale)) ∧
    optStr none = Value.null ∧
    optV none = Value.null ∧
    (∀ path objs, alookup "status" (list_workspace_objects path (Except.ok objs)) =
      some (Value.str "success")) ∧
    (∀ path objs, dictKeys (list_workspace_objects path (Except.ok objs)) =
      ["status", "path", "objects", "count"]) ∧
    (∀ obj : WorkspaceObjectInfo, dictKeys (workspaceObjectDict obj) =
      ["object_type", "path", "language", "object_id", "size", "created_at",
       "modified_at"]) ∧
    (∀ obj : WorkspaceObjectInfo, alookup "object_type" (workspaceObjectDict obj) =
      some (optStr obj.object_type)) :=
  ⟨fun cid cluster => rfl, fun cid cluster => rfl, fun cluster => rfl,
   fun cluster => rfl, fun cluster => rfl, rfl, rfl, fun path objs => rfl,
   fun path objs => rfl, fun obj => rfl, fun obj => rfl⟩

/-- Claim C4, counterexample: `get_cluster_events` invoked with its optional
`start_time`/`end_time` left unset still forwards both to the external call,
with the explicit `None` value — they are not omitted from the forwarded
keyword arguments. -/
theorem unset_optionals_forwarded_as_none :
    alookup "start_time" (get_cluster_events_forwarded "c-123" none none "DESC" 50) =
      some Value.null ∧
    alookup "end_time" (get_cluster_events_forwarded "c-123" none none "DESC" 50) =
      some Value.null ∧
    dictKeys (get_cluster_events_forwarded "c-123" none none "DESC" 50) =
      ["cluster_id", "start_time", "end_time", "order", "limit"] :=
  ⟨rfl, rfl, rfl⟩

/-- Claim C4 (amended): the forwarding policy is per-handler, not uniform.
`create_model` omits unset optional parameters from the forwarded config,
while `get_cluster_events` forwards every parameter, sending unset optionals
as the explicit `None` value. -/
theorem optional_forwarding :
    (∀ model_name, create_model_config model_name none none =
      [("name", Value.str model_name)]) ∧
    (∀ cid order limit, get_cluster_events_forwarded cid none none order limit =
      [("cluster_id", Value.str cid), ("start_time", Value.null),
       ("end_time", Value.null), ("order", Value.str order),
       ("limit", Value.num limit)]) :=
  ⟨fun model_name => rfl, fun cid order limit => rfl⟩

/-- Claim C5: for the list-returning handlers the `count` field of the
success envelope equals the length of the sequence returned in that same
envelope, for every sequence length including zero. -/
theorem count_matches_length :
    (∀ clusters, ∃ l,
      alookup "clusters" (list_clusters (Except.ok clusters)) = some (Value.list l) ∧
      alookup "count" (list_clusters (Except.ok clusters)) = some (Value.num l.length)) ∧
    (∀ scope secrets, ∃ l,
      alookup "secrets" (list_secrets scope (Except.ok secrets)) = some (Value.list l) ∧
      alookup "count" (list_secrets scope (Except.ok secrets)) = some (Value.num l.length)) ∧
    (∀ repos, ∃ l,
      alookup "repositories" (list_repos (Except.ok repos)) = some (Value.list l) ∧
      alookup "count" (list_repos (Except.ok repos)) = some (Value.num l.length)) ∧
    (∀ path objs, ∃ l,
      alookup "objects" (list_workspace_objects path (Except.ok objs)) = some (Value.list l) ∧
      alookup "count" (list_workspace_objects path (Except.ok objs)) = some (Value.num l.length)) ∧
    (∃ l, alookup "clusters" (list_clusters (Except.ok [])) = some (Value.list l) ∧
      alookup "count" (list_clusters (Except.ok [])) = some (Value.num 0) ∧ l.length = 0) :=
  ⟨fun clusters => ⟨clusters.map clusterInfoDict, rfl, rfl⟩,
   fun scope secrets => ⟨secrets.map secretInfoDict, rfl, rfl⟩,
   fun repos => ⟨repos.map repoInfoDict, rfl, rfl⟩,
   fun path objs => ⟨objs.map (fun o => Value.dict (workspaceObjectDict o)), rfl, rfl⟩,
   ⟨[], rfl, rfl, rfl⟩⟩

set_option maxRecDepth 40000 in
/-- Claim C6, counterexample: not just two but (at least) three governance
handlers — `query_audit_logs`, `query_table_usage`, `query_storage_usage` —
build their submitted query by string concatenation, embedding the caller's
arguments verbatim with no escaping, shown here at concrete inputs. -/
theorem third_query_handler_embeds_verbatim :
    strContainsSub (query_audit_logs_query "2024-01-01" "2024-01-31" none none 1000)
      "2024-01-01" = true ∧
    strContainsSub (query_table_usage_query "main.sales.orders" 30)
      "main.sales.orders" = true ∧
    strContainsSub (query_storage_usage_query "2024-01-01" "2024-01-31")
      "2024-01-01" = true := by
  refine ⟨?_, ?_, ?_⟩ <;> decide

/-- Claim C6 (amended): the governance module's query-construction handlers —
among them `query_audit_logs`, `query_table_usage` and `query_storage_usage`,
i.e. more than two — each build their submitted statement by string
concatenation that embeds every caller-supplied value verbatim, with no
escaping or parameter binding. -/
theorem injected_queries_verbatim :
    (∀ sd ed limit, strContainsSub (query_audit_logs_query sd ed none none limit) sd = true) ∧
    (∀ sd ed limit, strContainsSub (query_audit_logs_query sd ed none none limit) ed = true) ∧
    (∀ t days, strContainsSub (query_table_usage_query t days) t = true) ∧
    (∀ sd ed, strContainsSub (query_storage_usage_query sd ed) sd = true) ∧
    (∀ sd ed, strContainsSub (query_storage_usage_query sd ed) ed = true) := by
  refine ⟨?_, ?_, ?_, ?_, ?_⟩
  · intro sd ed limit
    simp only [query_audit_logs_query, query_audit_logs_where, pyJoin,
      String.append_assoc]
    apply strContainsSub_append_left
    apply strContainsSub_append_left
    apply strContainsSub_append_left
    exact strContainsSub_here sd _
  · intro sd ed limit
    simp only [query_audit_logs_query, query_audit_logs_where, pyJoin,
      String.append_assoc]
    apply strContainsSub_append_left
    apply strContainsSub_append_left
    apply strContainsSub_append_left
    apply strContainsSub_append_left
    apply strContainsSub_append_left
    apply strContainsSub_append_left
    apply strContainsSub_append_left
    apply strContainsSub_append_left
    exact strContainsSub_here ed _
  · intro t days
    simp only [query_table_usage_query, String.append_assoc]
    apply strContainsSub_append_left
    apply strContainsSub_append_left
    exact strContainsSub_here t _
  · intro sd ed
    simp only [query_storage_usage_query, String.append_assoc]
    apply strContainsSub_append_left
    apply strContainsSub_append_left
    exact strContainsSub_here sd _
  · intro sd ed
    simp only [query_storage_usage_query, String.append_assoc]
    apply strContainsSub_append_left
    apply strContainsSub_append_left
    apply strContainsSub_append_left
    apply strContainsSub_append_left
    apply strContainsSub_append_left
    apply strContainsSub_append_left
    exact strContainsSub_here ed _

/-- Claim C7: for every date range, `query_audit_logs` with both optional
filters unset produces exactly the unfiltered WHERE clause — the two date
conditions joined by a single `" AND "`, with no empty or extra filter
clauses. -/
theorem audit_where_unfiltered :
    ∀ sd ed, query_audit_logs_where sd ed none none =
      ("event_date >= " ++ sqt ++ sd ++ sqt) ++ " AND " ++
        ("event_date <= " ++ sqt ++ ed ++ sqt) := by
  intro sd ed
  simp only [query_audit_logs_where, pyJoin]

/-- Claim C8: when the inner schema-listing call raises, `list_system_schemas`
does not return an error envelope: it falls back to a success envelope
carrying the six hard-coded system schemas with `count` equal to 6. -/
theorem fallback_schemas_success :
    ∀ e, list_system_schemas (Except.ok ()) (Except.error e) =
      [("status", Value.str "success"),
       ("system_schemas", Value.list fallbackSystemSchemas),
       ("count", Value.num 6),
       ("message", Value.str "Standard system schemas listed")] ∧
    alookup "status" (list_system_schemas (Except.ok ()) (Except.error e)) =
      some (Value.str "success") ∧
    alookup "count" (list_system_schemas (Except.ok ()) (Except.error e)) =
      some (Value.num 6) ∧
    fallbackSystemSchemas.length = 6 :=
  fun e => ⟨rfl, rfl, rfl, rfl⟩

/-- Claim C9: `edit_cluster`, `edit_instance_pool`, `edit_cluster_policy` and
`update_ip_access_list` mutate the caller-supplied configuration mapping in
place, inserting the identifier key before forwarding it to the external
call; every other key of the caller's mapping is left unchanged. -/
theorem config_mutated_in_place :
    (∀ cid config call,
      (edit_cluster cid config call).2 = pySetItem config "cluster_id" (Value.str cid) ∧
      alookup "cluster_id" (edit_cluster cid config call).2 = some (Value.str cid) ∧
      (∀ k, k ≠ "cluster_id" →
        alookup k (edit_cluster cid config call).2 = alookup k config)) ∧
    (∀ pid config call,
      (edit_instance_pool pid config call).2 = pySetItem config "instance_pool_id" (Value.str pid) ∧
      alookup "instance_pool_id" (edit_instance_pool pid config call).2 = some (Value.str pid) ∧
      (∀ k, k ≠ "instance_pool_id" →
        alookup k (edit_instance_pool pid config call).2 = alookup k config)) ∧
    (∀ pid config call,
      (edit_cluster_policy pid config call).2 = pySetItem config "policy_id" (Value.str pid) ∧
      alookup "policy_id" (edit_cluster_policy pid config call).2 = some (Value.str pid) ∧
      (∀ k, k ≠ "policy_id" →
        alookup k (edit_cluster_policy pid config call).2 = alookup k config)) ∧
    (∀ lid config call,
      (update_ip_access_list lid config call).2 = pySetItem config "list_id" (Value.str lid) ∧
      alookup "list_id" (update_ip_access_list lid config call).2 = some (Value.str lid) ∧
      (∀ k, k ≠ "list_id" →
        alookup k (update_ip_access_list lid config call).2 = alookup k config)) := by
  refine ⟨?_, ?_, ?_, ?_⟩
  · intro cid config call
    have h2 : (edit_cluster cid config call).2 =
        pySetItem config "cluster_id" (Value.str cid) := by cases call <;> rfl
    exact ⟨h2, by rw [h2]; exact alookup_pySetItem_self _ _ _,
      fun k hk => by rw [h2]; exact alookup_pySetItem_other _ _ _ _ hk⟩
  · intro pid config call
    have h2 : (edit_instance_pool pid config call).2 =
        pySetItem config "instance_pool_id" (Value.str pid) := by cases call <;> rfl
    exact ⟨h2, by rw [h2]; exact alookup_pySetItem_self _ _ _,
      fun k hk => by rw [h2]; exact alookup_pySetItem_other _ _ _ _ hk⟩
  · intro pid config call
    have h2 : (edit_cluster_policy pid config call).2 =
        pySetItem config "policy_id" (Value.str pid) := by cases call <;> rfl
    exact ⟨h2, by rw [h2]; exact alookup_pySetItem_self _ _ _,
      fun k hk => by rw [h2]; exact alookup_pySetItem_other _ _ _ _ hk⟩
  · intro lid config call
    have h2 : (update_ip_access_list lid config call).2 =
        pySetItem config "list_id" (Value.str lid) := by cases call <;> rfl
    exact ⟨h2, by rw [h2]; exact alookup_pySetItem_self _ _ _,
      fun k hk => by rw [h2]; exact alookup_pySetItem_other _ _ _ _ hk⟩

/-- Claim C9, witness: at a concrete configuration `{'num_workers': 2}`,
`edit_cluster` leaves the caller's other key unchanged while inserting
`cluster_id`. -/
theorem config_mutated_in_place_witness :
    alookup "num_workers" (edit_cluster "c-1" [("num_workers", Value.num 2)] (Except.ok ())).2 =
      alookup "num_workers" [("num_workers", Value.num 2)] :=
  (config_mutated_in_place.1 "c-1" [("num_workers", Value.num 2)] (Except.ok ())).2.2
    "num_workers" (by decide)

/-- Claim C10: `query_table_lineage` with both `upstream` and `downstream`
false never invokes `execute_statement` (second component `false`), and —
whenever the client accessor succeeds — returns exactly the error envelope
`{status: "error", message: "Must specify upstream or downstream lineage"}`. -/
theorem lineage_guard :
    ∀ (t : String) (clientRes : Except String Unit) (execRes : Except String Value),
      (query_table_lineage t false false clientRes execRes).2 = false ∧
      (query_table_lineage t false false (Except.ok ()) execRes).1 =
        errEnv "Must specify upstream or downstream lineage" := by
  intro t clientRes execRes
  constructor
  · cases clientRes <;> rfl
  · rfl
